import Mathlib

/-!
# Verification of `withAuthUserTokenSSR` (next-firebase-auth)

A shallow embedding of `src/withAuthUserTokenSSR.js`: the per-request
server-side handler that resolves the requester's identity from a session
cookie, applies a redirect policy, and merges the serialized identity into
the props returned by an optional wrapped `getServerSideProps` provider.

External collaborators that the source imports from modules not present in
the repository snapshot (the cookie store `getCookie`, the JSON parser
`JSON.parse`, the verifier `verifyIdToken`, the identity constructor
`createAuthUser` and its `serialize`) are modelled as components of an
environment record `Env`, narrowed to the per-request interface the handler
actually uses.  Fallible JavaScript operations (a `throw` escaping the
`async` handler) are modelled with `Except`.  External invocations that the
claims count (verifier calls, wrapped-provider calls) are recorded in an
explicit call trace returned alongside the result.
-/

/-- JavaScript values appearing in props objects and claims maps
(restricted to the first-order fragment the handler manipulates). -/
inductive JsValue where
  | str (s : String)
  | num (n : Int)
  | boolean (b : Bool)
  | null
deriving DecidableEq, Repr

/-- A JavaScript object as an ordered list of key/value bindings.
With object-spread syntax, a later binding for the same key overwrites
an earlier one, so lookup takes the last matching binding. -/
abbrev JsObject := List (String × JsValue)

/-- Property lookup on a `JsObject`: the LAST binding for a key wins,
matching the semantics of `\x7b a, ...b \x7d` object literals where later
spreads overwrite earlier keys. -/
def objGet (o : JsObject) (k : String) : Option JsValue :=
  match o with
  | [] => none
  | (k2, v) :: rest =>
    match objGet rest k with
    | some v2 => some v2
    | none => if k2 = k then some v else none

/-- JavaScript truthiness of a `string | null | undefined` value:
`null`/`undefined` and the empty string are falsy. -/
def truthyOpt : Option String → Bool
  | none => false
  | some s => !(s = "")

/-- JavaScript `a || b` on `string | null | undefined` values. -/
def jsOr (a b : Option String) : Option String :=
  if truthyOpt a then a else b

/-- The resolved identity (`AuthUser` in the source; `Identity` in the
design).  `id` is `string | null` (`none` = anonymous), `claims` is the
decoded claims mapping, and `token` is the id-token value carried for
`AuthUser.getIdToken` (always `none` when no token was verified). -/
structure AuthUser where
  id : Option String
  claims : JsObject
  token : Option String
deriving DecidableEq, Repr

/-- Modelled from the spec: `createAuthUser()` (from `src/createAuthUser`,
not under `src/`) with no arguments produces "the canonical anonymous
Identity (`id: null`, empty claims, `idTokenValue: null`)". -/
def createAuthUserAnon : AuthUser :=
  { id := none, claims := [], token := none }

/-- The two fields the handler destructures from the parsed token-cookie
payload.  A field is `none` when absent from the JSON object (its
destructured value is `undefined`). -/
structure CredentialPayload where
  idToken : Option String
  refreshToken : Option String
deriving DecidableEq, Repr

/-- The per-call behaviors configured on `withAuthUserTokenSSR`.
`AuthAction` in the source. -/
inductive AuthAction where
  | RENDER
  | REDIRECT_TO_APP
  | REDIRECT_TO_LOGIN
deriving DecidableEq, Repr

/-- The first options object of `withAuthUserTokenSSR`, after JavaScript
default-parameter resolution (source lines 32-39). -/
structure Options where
  whenAuthed : AuthAction
  whenUnauthed : AuthAction
  appPageURL : Option String
  authPageURL : Option String
deriving DecidableEq, Repr

/-- The first argument as the caller supplies it: each field is `none`
when the caller omitted it (so the JavaScript default applies). -/
structure OptionsArg where
  whenAuthed : Option AuthAction
  whenUnauthed : Option AuthAction
  appPageURL : Option (Option String)
  authPageURL : Option (Option String)
deriving DecidableEq, Repr

/-- JavaScript default-parameter resolution for the destructured options
(source lines 33-38): `whenAuthed = AuthAction.RENDER`,
`whenUnauthed = AuthAction.RENDER`, `appPageURL = null`,
`authPageURL = null`. -/
def resolveOptions (a : OptionsArg) : Options :=
  { whenAuthed := a.whenAuthed.getD AuthAction.RENDER
    whenUnauthed := a.whenUnauthed.getD AuthAction.RENDER
    appPageURL := (a.appPageURL.getD none)
    authPageURL := (a.authPageURL.getD none) }

/-- Calling the factory with no first argument (`\x7b \x7d = \x7b \x7d` default). -/
def noOptions : OptionsArg :=
  { whenAuthed := none, whenUnauthed := none
    appPageURL := none, authPageURL := none }

/-- The options in force when the factory is called with no arguments. -/
def defaultOptions : Options := resolveOptions noOptions

/-- Default-parameter resolution for the second argument
(`\x7b useToken = true \x7d = \x7b \x7d`, source line 39): `none` models an
omitted/undefined `useToken`. -/
def resolveUseToken (a : Option Bool) : Bool := a.getD true

/-- `useToken` when the factory is called with no second argument. -/
def defaultUseToken : Bool := resolveUseToken none

/-- Process-wide configuration returned by `getConfig()` (from
`src/config`, not under `src/`), narrowed to the fields the handler
reads besides the cookie settings (which are forwarded verbatim to
`getCookie` and are folded into `Env.getCookie` below). -/
structure Config where
  authPageURL : Option String
  appPageURL : Option String
deriving DecidableEq, Repr

/-- A `throw` escaping the handler.  `jsonParseError` is the `SyntaxError`
thrown by `JSON.parse` on malformed input (line 65); `verifyError` is a
failure rejected by `verifyIdToken` (line 68); the two `missing*URL`
constructors are the explicit `Error`s thrown at lines 93 and 106 when a
mandated redirect has no configured destination. -/
inductive HandlerErr where
  | jsonParseError (msg : String)
  | verifyError (msg : String)
  | missingAuthPageURL
  | missingAppPageURL
deriving DecidableEq, Repr

/-- A redirect instruction, as placed under the `redirect` key of the
returned object. -/
structure Redirect where
  destination : String
  permanent : Bool
deriving DecidableEq, Repr

/-- The two-variant result of the handler: a redirect object or a props
object. -/
inductive HandlerResult where
  | redirect (r : Redirect)
  | props (p : JsObject)
deriving DecidableEq, Repr

/-- External invocations the handler performs, recorded in order:
`verifyCall` is an invocation of `verifyIdToken idToken refreshToken`
(the sole network-reaching operation); `providerCall` is an invocation of
the wrapped `getServerSidePropsFunc`, recording the `AuthUser` injected
into its context beforehand (`ctx.AuthUser`, line 120). -/
inductive ExtCall where
  | verifyCall (idToken : String) (refreshToken : Option String)
  | providerCall (user : AuthUser)
deriving DecidableEq, Repr

/-- Recognizes a wrapped-provider invocation in the call trace. -/
def isProviderCall : ExtCall → Bool
  | ExtCall.providerCall _ => true
  | _ => false

/-- Recognizes a verifier invocation in the call trace. -/
def isVerifyCall : ExtCall → Bool
  | ExtCall.verifyCall _ _ => true
  | _ => false

/-- The per-request environment: the external collaborators the handler
imports, narrowed to the interfaces it uses for one request.

* `getCookie c` models `getCookie(c, \x7b req, res \x7d, \x7b keys, secure, signed \x7d)`:
  the named cookie's payload, or `none` when absent or its signature fails.
* `tokensCookieName` / `userCookieName` model `getAuthUserTokensCookieName()`
  and `getAuthUserCookieName()` (from `src/authCookies`, not under `src/`).
* `parseJson` models `JSON.parse` restricted to the two string fields the
  handler destructures; `Except.error` is a thrown `SyntaxError`.
* `verifyIdToken` — modelled from the spec: `src/firebaseAdmin` is not under
  `src/`; per the design, `verify(idToken, refreshToken)` returns a current
  verified identity or "fails with an `AuthVerificationError`" (refresh
  failure, revoked token, provider unreachable), modelled as `Except.error`.
* `deserializeAuthUser` — modelled from the spec: the snapshot-mode branch of
  `createAuthUser` (not under `src/`) "deserialize[s the user cookie]
  directly into an Identity without verification", yielding its `id` and
  claims; "`idTokenValue` is always `null` in this mode".
* `serializeAuthUser` models `AuthUser.serialize()`.
* `config` models `getConfig()` (minus the cookie settings, see above). -/
structure Env where
  getCookie : String → Option String
  tokensCookieName : String
  userCookieName : String
  parseJson : String → Except String CredentialPayload
  verifyIdToken : String → Option String → Except String AuthUser
  deserializeAuthUser : String → Option String × JsObject
  serializeAuthUser : AuthUser → String
  config : Config

/-- Modelled from the spec: `createAuthUser(\x7b serializedAuthUser \x7d)` (from
`src/createAuthUser`, not under `src/`).  Snapshot mode "decode[s] a
separate user cookie (no network call) and deserialize[s] it directly into
an Identity without verification"; with no cookie value there is no
credential, so the result is the anonymous Identity; "`idTokenValue` is
always `null` in this mode since no token is carried". -/
def createAuthUserFromSerialized (env : Env) (cookieVal : Option String) : AuthUser :=
  match cookieVal with
  | none => createAuthUserAnon
  | some s =>
    let d := env.deserializeAuthUser s
    { id := d.1, claims := d.2, token := none }

/-- Token-mode payload reading (source lines 56-66): read the tokens
cookie and destructure `idToken` / `refreshToken` from its parsed payload.
A falsy cookie value (absent or empty) yields `\x7b \x7d`, so both destructured
fields are `undefined`; a truthy value goes through `JSON.parse`, whose
`SyntaxError` on malformed input escapes as a thrown error. -/
def readTokenPayload (env : Env) : Except HandlerErr CredentialPayload :=
  match env.getCookie env.tokensCookieName with
  | some s =>
    if s = "" then Except.ok { idToken := none, refreshToken := none }
    else
      match env.parseJson s with
      | Except.ok p => Except.ok p
      | Except.error m => Except.error (HandlerErr.jsonParseError m)
  | none => Except.ok { idToken := none, refreshToken := none }

/-- Identity resolution (source lines 53-86): in token mode, read the
tokens cookie, parse its payload, and call `verifyIdToken` iff the
destructured `idToken` is truthy, else produce the unauthenticated
`AuthUser`; in snapshot mode, read the user cookie and build the
`AuthUser` from its serialized payload.  Returns the resolved user (or
the escaping `throw`) together with the trace of external calls. -/
def resolveAuthUser (env : Env) (useToken : Bool) :
    Except HandlerErr AuthUser × List ExtCall :=
  if useToken then
    match readTokenPayload env with
    | Except.error e => (Except.error e, [])
    | Except.ok p =>
      match p.idToken with
      | some t =>
        if t = "" then (Except.ok createAuthUserAnon, [])
        else
          (match env.verifyIdToken t p.refreshToken with
           | Except.ok u => Except.ok u
           | Except.error m => Except.error (HandlerErr.verifyError m),
           [ExtCall.verifyCall t p.refreshToken])
      | none => (Except.ok createAuthUserAnon, [])
  else
    (Except.ok (createAuthUserFromSerialized env (env.getCookie env.userCookieName)), [])

/-- The redirect policy (source lines 89-113): if the user is unauthed
(`!AuthUser.id`) and `whenUnauthed` is `REDIRECT_TO_LOGIN`, redirect to
`authPageURL || getConfig().authPageURL`, throwing when that destination
is falsy; else if the user is authed and `whenAuthed` is
`REDIRECT_TO_APP`, symmetrically with `appPageURL`; else no redirect. -/
def applyPolicy (cfg : Config) (opts : Options) (u : AuthUser) :
    Except HandlerErr (Option Redirect) :=
  if truthyOpt u.id = false ∧ opts.whenUnauthed = AuthAction.REDIRECT_TO_LOGIN then
    match jsOr opts.authPageURL cfg.authPageURL with
    | some d =>
      if d = "" then Except.error HandlerErr.missingAuthPageURL
      else Except.ok (some { destination := d, permanent := false })
    | none => Except.error HandlerErr.missingAuthPageURL
  else if truthyOpt u.id = true ∧ opts.whenAuthed = AuthAction.REDIRECT_TO_APP then
    match jsOr opts.appPageURL cfg.appPageURL with
    | some d =>
      if d = "" then Except.error HandlerErr.missingAppPageURL
      else Except.ok (some { destination := d, permanent := false })
    | none => Except.error HandlerErr.missingAppPageURL
  else
    Except.ok none

/-- The full per-request handler produced by
`withAuthUserTokenSSR(options, \x7b useToken \x7d)(getServerSidePropsFunc)`:
resolve the `AuthUser`, serialize it, apply the redirect policy, then
either return the redirect, or invoke the wrapped provider (if any) with
the resolved user injected into its context and return
`\x7b props: \x7b AuthUserSerialized, ...composedProps \x7d \x7d` — the reserved key is
written first and the provider's bindings are spread after it.  `gssp`
models `getServerSidePropsFunc` as a function of the injected
`ctx.AuthUser` (the one piece of context this handler adds), returning
the object spread into the props. -/
def handler (env : Env) (opts : Options) (useToken : Bool)
    (gssp : Option (AuthUser → JsObject)) :
    Except HandlerErr HandlerResult × List ExtCall :=
  match resolveAuthUser env useToken with
  | (Except.error e, calls) => (Except.error e, calls)
  | (Except.ok u, calls) =>
    let serialized := env.serializeAuthUser u
    match applyPolicy env.config opts u with
    | Except.error e => (Except.error e, calls)
    | Except.ok (some r) => (Except.ok (HandlerResult.redirect r), calls)
    | Except.ok none =>
      match gssp with
      | none =>
        (Except.ok (HandlerResult.props [("AuthUserSerialized", JsValue.str serialized)]),
         calls)
      | some f =>
        let composedProps := f u
        (Except.ok (HandlerResult.props
            (("AuthUserSerialized", JsValue.str serialized) :: composedProps)),
         calls ++ [ExtCall.providerCall u])

/-! ## Concrete sample environments (used in counterexamples and witnesses) -/

/-- A baseline concrete environment: no cookies present, parsing always a
`SyntaxError`, verification always failing, a fixed serialization. -/
def sampleEnv : Env :=
  { getCookie := fun _ => none
    tokensCookieName := "SampleApp.AuthUserTokens"
    userCookieName := "SampleApp.AuthUser"
    parseJson := fun _ => Except.error "SyntaxError: Unexpected token"
    verifyIdToken := fun _ _ => Except.error "auth/argument-error"
    deserializeAuthUser := fun _ => (none, [])
    serializeAuthUser := fun _ => "serializedAuthUser"
    config := { authPageURL := none, appPageURL := none } }

/-- A concrete authenticated user, as returned by a successful verifier. -/
def authedUser : AuthUser :=
  { id := some "user1"
    claims := [("email", JsValue.str "user1@example.com")]
    token := some "idtok1" }

/-- Environment whose tokens cookie holds a payload with both fields, and
whose verifier accepts that id token. -/
def authedEnv : Env :=
  { sampleEnv with
    getCookie := fun c =>
      if c = "SampleApp.AuthUserTokens" then some "credentialJson" else none
    parseJson := fun s =>
      if s = "credentialJson" then
        Except.ok { idToken := some "idtok1", refreshToken := some "refresh1" }
      else Except.error "SyntaxError: Unexpected token"
    verifyIdToken := fun t _ =>
      if t = "idtok1" then Except.ok authedUser
      else Except.error "auth/argument-error" }

/-- Environment whose tokens cookie is present but holds malformed JSON. -/
def malformedEnv : Env :=
  { sampleEnv with
    getCookie := fun c =>
      if c = "SampleApp.AuthUserTokens" then some "not-json" else none }

/-- Environment whose tokens cookie payload carries an `idToken` but no
`refreshToken`, with a verifier that accepts the id token (and tolerates
the absent refresh token). -/
def noRefreshEnv : Env :=
  { sampleEnv with
    getCookie := fun c =>
      if c = "SampleApp.AuthUserTokens" then some "credentialJson" else none
    parseJson := fun s =>
      if s = "credentialJson" then
        Except.ok { idToken := some "idtok1", refreshToken := none }
      else Except.error "SyntaxError: Unexpected token"
    verifyIdToken := fun t _ =>
      if t = "idtok1" then Except.ok authedUser
      else Except.error "auth/argument-error" }

/-- Environment whose tokens cookie payload carries an expired id token
with a revoked refresh token: verification/refresh fails. -/
def revokedEnv : Env :=
  { sampleEnv with
    getCookie := fun c =>
      if c = "SampleApp.AuthUserTokens" then some "credentialJson" else none
    parseJson := fun s =>
      if s = "credentialJson" then
        Except.ok { idToken := some "expiredTok", refreshToken := some "revokedRefresh" }
      else Except.error "SyntaxError: Unexpected token" }

/-- Environment whose tokens cookie payload carries a `refreshToken` but
no `idToken`. -/
def noIdTokenEnv : Env :=
  { sampleEnv with
    getCookie := fun c =>
      if c = "SampleApp.AuthUserTokens" then some "credentialJson" else none
    parseJson := fun s =>
      if s = "credentialJson" then
        Except.ok { idToken := none, refreshToken := some "refresh1" }
      else Except.error "SyntaxError: Unexpected token" }

/-! ## Shared helper lemmas -/

/-- Looking up the head key: the later bindings (the spread of the wrapped
provider's object) win when they also bind the key. -/
theorem objGet_cons_self (k : String) (v : JsValue) (rest : JsObject) :
    objGet ((k, v) :: rest) k = some ((objGet rest k).getD v) := by
  cases h : objGet rest k <;> simp [objGet, h]

/-- Identity resolution never invokes the wrapped provider: its call trace
is empty or a single verifier call. -/
theorem resolveAuthUser_calls (env : Env) (ut : Bool) :
    (resolveAuthUser env ut).2 = [] ∨
    ∃ t r, (resolveAuthUser env ut).2 = [ExtCall.verifyCall t r] := by
  cases ut with
  | false => exact Or.inl rfl
  | true =>
    unfold resolveAuthUser
    simp only [if_true]
    cases hp : readTokenPayload env with
    | error e => exact Or.inl rfl
    | ok p =>
      dsimp only
      cases ht : p.idToken with
      | none => exact Or.inl rfl
      | some t =>
        dsimp only
        by_cases hte : t = ""
        · rw [if_pos hte]
          exact Or.inl rfl
        · rw [if_neg hte]
          exact Or.inr ⟨t, p.refreshToken, rfl⟩

/-- The provider-call filter of a resolution trace is empty. -/
theorem resolveAuthUser_no_providerCall (env : Env) (ut : Bool) :
    (resolveAuthUser env ut).2.filter isProviderCall = [] := by
  rcases resolveAuthUser_calls env ut with h | ⟨t, r, h⟩ <;>
    simp [h, isProviderCall]

/-- Unfolding the handler when resolution fails. -/
theorem handler_eq_of_resolve_error (env : Env) (opts : Options) (ut : Bool)
    (gssp : Option (AuthUser → JsObject)) (e : HandlerErr) (calls : List ExtCall)
    (h : resolveAuthUser env ut = (Except.error e, calls)) :
    handler env opts ut gssp = (Except.error e, calls) := by
  unfold handler
  rw [h]

/-- Unfolding the handler when resolution succeeds: the result is decided
by the redirect policy and the optional wrapped provider. -/
theorem handler_eq_of_resolve_ok (env : Env) (opts : Options) (ut : Bool)
    (gssp : Option (AuthUser → JsObject)) (u : AuthUser) (calls : List ExtCall)
    (h : resolveAuthUser env ut = (Except.ok u, calls)) :
    handler env opts ut gssp =
      match applyPolicy env.config opts u with
      | Except.error e => (Except.error e, calls)
      | Except.ok (some r) => (Except.ok (HandlerResult.redirect r), calls)
      | Except.ok none =>
        match gssp with
        | none =>
          (Except.ok (HandlerResult.props
              [("AuthUserSerialized", JsValue.str (env.serializeAuthUser u))]),
           calls)
        | some f =>
          (Except.ok (HandlerResult.props
              (("AuthUserSerialized", JsValue.str (env.serializeAuthUser u)) :: f u)),
           calls ++ [ExtCall.providerCall u]) := by
  unfold handler
  rw [h]

/-- Reading the token payload when the cookie is present, non-empty and
parses with an error: the `SyntaxError` escapes. -/
theorem readTokenPayload_parse_error (env : Env) (s e : String)
    (hc : env.getCookie env.tokensCookieName = some s) (hs : s ≠ "")
    (hp : env.parseJson s = Except.error e) :
    readTokenPayload env = Except.error (HandlerErr.jsonParseError e) := by
  simp only [readTokenPayload, hc, if_neg hs, hp]

/-- Reading the token payload when the cookie is present, non-empty and
parses successfully. -/
theorem readTokenPayload_parse_ok (env : Env) (s : String) (p : CredentialPayload)
    (hc : env.getCookie env.tokensCookieName = some s) (hs : s ≠ "")
    (hp : env.parseJson s = Except.ok p) :
    readTokenPayload env = Except.ok p := by
  simp only [readTokenPayload, hc, if_neg hs, hp]

/-- Reading the token payload when the cookie is absent: both destructured
fields are `undefined`. -/
theorem readTokenPayload_absent (env : Env)
    (hc : env.getCookie env.tokensCookieName = none) :
    readTokenPayload env = Except.ok { idToken := none, refreshToken := none } := by
  simp only [readTokenPayload, hc]

/-- Token-mode resolution when payload reading throws: the error escapes
and no external call is made. -/
theorem resolveAuthUser_payload_error (env : Env) (e : HandlerErr)
    (hpl : readTokenPayload env = Except.error e) :
    resolveAuthUser env true = (Except.error e, []) := by
  unfold resolveAuthUser
  rw [hpl]
  rfl

/-- Token-mode resolution when the payload has no truthy `idToken`:
the unauthenticated `AuthUser`, no external call. -/
theorem resolveAuthUser_no_idToken (env : Env) (p : CredentialPayload)
    (hpl : readTokenPayload env = Except.ok p)
    (ht : p.idToken = none ∨ p.idToken = some "") :
    resolveAuthUser env true = (Except.ok createAuthUserAnon, []) := by
  unfold resolveAuthUser
  rw [hpl]
  dsimp only
  rcases ht with ht | ht <;> rw [ht] <;> rfl

/-- Token-mode resolution with a truthy `idToken`: exactly one verifier
call, passing the destructured (possibly absent) `refreshToken`, whose
outcome decides the result. -/
theorem resolveAuthUser_verify (env : Env) (p : CredentialPayload) (t : String)
    (hpl : readTokenPayload env = Except.ok p)
    (ht : p.idToken = some t) (hte : t ≠ "") :
    resolveAuthUser env true =
      (match env.verifyIdToken t p.refreshToken with
       | Except.ok u => Except.ok u
       | Except.error m => Except.error (HandlerErr.verifyError m),
       [ExtCall.verifyCall t p.refreshToken]) := by
  unfold resolveAuthUser
  rw [hpl]
  dsimp only
  rw [ht]
  dsimp only
  rw [if_neg hte]
  rfl

/-- The redirect policy in the unauthenticated-redirect branch. -/
theorem applyPolicy_unauthed_redirect (cfg : Config) (opts : Options) (u : AuthUser)
    (h1 : truthyOpt u.id = false) (h2 : opts.whenUnauthed = AuthAction.REDIRECT_TO_LOGIN) :
    applyPolicy cfg opts u =
      match jsOr opts.authPageURL cfg.authPageURL with
      | some d =>
        if d = "" then Except.error HandlerErr.missingAuthPageURL
        else Except.ok (some { destination := d, permanent := false })
      | none => Except.error HandlerErr.missingAuthPageURL := by
  unfold applyPolicy
  rw [if_pos ⟨h1, h2⟩]

/-- The redirect policy in the authenticated-redirect branch. -/
theorem applyPolicy_authed_redirect (cfg : Config) (opts : Options) (u : AuthUser)
    (h1 : truthyOpt u.id = true) (h2 : opts.whenAuthed = AuthAction.REDIRECT_TO_APP) :
    applyPolicy cfg opts u =
      match jsOr opts.appPageURL cfg.appPageURL with
      | some d =>
        if d = "" then Except.error HandlerErr.missingAppPageURL
        else Except.ok (some { destination := d, permanent := false })
      | none => Except.error HandlerErr.missingAppPageURL := by
  unfold applyPolicy
  rw [if_neg (fun hc => by simp [h1] at hc), if_pos ⟨h1, h2⟩]

/-- No redirect for an unauthenticated user unless `whenUnauthed` is
`REDIRECT_TO_LOGIN`. -/
theorem applyPolicy_none_unauthed (cfg : Config) (opts : Options) (u : AuthUser)
    (h1 : truthyOpt u.id = false) (h2 : opts.whenUnauthed ≠ AuthAction.REDIRECT_TO_LOGIN) :
    applyPolicy cfg opts u = Except.ok none := by
  unfold applyPolicy
  rw [if_neg (fun hc => h2 hc.2), if_neg (fun hc => by simp [h1] at hc)]

/-- No redirect for an authenticated user unless `whenAuthed` is
`REDIRECT_TO_APP`. -/
theorem applyPolicy_none_authed (cfg : Config) (opts : Options) (u : AuthUser)
    (h1 : truthyOpt u.id = true) (h2 : opts.whenAuthed ≠ AuthAction.REDIRECT_TO_APP) :
    applyPolicy cfg opts u = Except.ok none := by
  unfold applyPolicy
  rw [if_neg (fun hc => by simp [h1] at hc), if_neg (fun hc => h2 hc.2)]

/-- Missing login-redirect destination: both the per-call and the global
`authPageURL` are falsy, so the policy throws. -/
theorem applyPolicy_missing_auth (cfg : Config) (opts : Options) (u : AuthUser)
    (h1 : truthyOpt u.id = false) (h2 : opts.whenUnauthed = AuthAction.REDIRECT_TO_LOGIN)
    (h3 : truthyOpt opts.authPageURL = false) (h4 : truthyOpt cfg.authPageURL = false) :
    applyPolicy cfg opts u = Except.error HandlerErr.missingAuthPageURL := by
  rw [applyPolicy_unauthed_redirect cfg opts u h1 h2]
  have hj : jsOr opts.authPageURL cfg.authPageURL = cfg.authPageURL := by
    simp [jsOr, h3]
  rw [hj]
  cases hcfg : cfg.authPageURL with
  | none => rfl
  | some d =>
    have hd : d = "" := by
      rw [hcfg] at h4
      simpa [truthyOpt] using h4
    simp [hd]

/-- Missing app-redirect destination: both the per-call and the global
`appPageURL` are falsy, so the policy throws. -/
theorem applyPolicy_missing_app (cfg : Config) (opts : Options) (u : AuthUser)
    (h1 : truthyOpt u.id = true) (h2 : opts.whenAuthed = AuthAction.REDIRECT_TO_APP)
    (h3 : truthyOpt opts.appPageURL = false) (h4 : truthyOpt cfg.appPageURL = false) :
    applyPolicy cfg opts u = Except.error HandlerErr.missingAppPageURL := by
  rw [applyPolicy_authed_redirect cfg opts u h1 h2]
  have hj : jsOr opts.appPageURL cfg.appPageURL = cfg.appPageURL := by
    simp [jsOr, h3]
  rw [hj]
  cases hcfg : cfg.appPageURL with
  | none => rfl
  | some d =>
    have hd : d = "" := by
      rw [hcfg] at h4
      simpa [truthyOpt] using h4
    simp [hd]

/-- Every redirect the policy produces is non-permanent. -/
theorem applyPolicy_permanent_false (cfg : Config) (opts : Options) (u : AuthUser)
    (r : Redirect) (h : applyPolicy cfg opts u = Except.ok (some r)) :
    r.permanent = false := by
  unfold applyPolicy at h
  split at h
  · split at h
    · split at h
      · simp at h
      · simp only [Except.ok.injEq, Option.some.injEq] at h
        subst h
        rfl
    · simp at h
  · split at h
    · split at h
      · split at h
        · simp at h
        · simp only [Except.ok.injEq, Option.some.injEq] at h
          subst h
          rfl
      · simp at h
    · simp at h

/-- The redirect policy under the factory's default options never
redirects and never throws. -/
theorem applyPolicy_defaultOptions (cfg : Config) (u : AuthUser) :
    applyPolicy cfg defaultOptions u = Except.ok none := by
  unfold applyPolicy
  rw [if_neg (fun hc => by exact absurd hc.2 (by decide)),
    if_neg (fun hc => by exact absurd hc.2 (by decide))]

/-! ## Claims -/

/-- C5: for every identity and policy mandating a redirect (anonymous with
`whenUnauthed = REDIRECT_TO_LOGIN`, or authenticated with
`whenAuthed = REDIRECT_TO_APP`) where neither the per-call destination URL
nor the global default URL is configured (both falsy), the handler fails
fast with the explicit missing-URL error — a result distinct from any
redirect or props result — rather than guessing a destination or
swallowing the error. -/
theorem c5_missing_redirect_url_fails_fast :
    (∀ (env : Env) (opts : Options) (ut : Bool) (gssp : Option (AuthUser → JsObject))
       (u : AuthUser) (calls : List ExtCall),
       resolveAuthUser env ut = (Except.ok u, calls) →
       truthyOpt u.id = false →
       opts.whenUnauthed = AuthAction.REDIRECT_TO_LOGIN →
       truthyOpt opts.authPageURL = false →
       truthyOpt env.config.authPageURL = false →
       handler env opts ut gssp = (Except.error HandlerErr.missingAuthPageURL, calls)) ∧
    (∀ (env : Env) (opts : Options) (ut : Bool) (gssp : Option (AuthUser → JsObject))
       (u : AuthUser) (calls : List ExtCall),
       resolveAuthUser env ut = (Except.ok u, calls) →
       truthyOpt u.id = true →
       opts.whenAuthed = AuthAction.REDIRECT_TO_APP →
       truthyOpt opts.appPageURL = false →
       truthyOpt env.config.appPageURL = false →
       handler env opts ut gssp = (Except.error HandlerErr.missingAppPageURL, calls)) := by
  constructor
  · intro env opts ut gssp u calls hres h1 h2 h3 h4
    rw [handler_eq_of_resolve_ok env opts ut gssp u calls hres,
      applyPolicy_missing_auth env.config opts u h1 h2 h3 h4]
  · intro env opts ut gssp u calls hres h1 h2 h3 h4
    rw [handler_eq_of_resolve_ok env opts ut gssp u calls hres,
      applyPolicy_missing_app env.config opts u h1 h2 h3 h4]

/-- Witness for C5: with no `authPageURL` configured anywhere, an anonymous
request under `whenUnauthed = REDIRECT_TO_LOGIN` hits the explicit
configuration error; symmetrically for `appPageURL` with an authenticated
request under `whenAuthed = REDIRECT_TO_APP`. -/
theorem c5_witness :
    handler sampleEnv
        { whenAuthed := AuthAction.RENDER, whenUnauthed := AuthAction.REDIRECT_TO_LOGIN,
          appPageURL := none, authPageURL := none } true none
      = (Except.error HandlerErr.missingAuthPageURL, []) ∧
    handler authedEnv
        { whenAuthed := AuthAction.REDIRECT_TO_APP, whenUnauthed := AuthAction.RENDER,
          appPageURL := none, authPageURL := none } true none
      = (Except.error HandlerErr.missingAppPageURL,
         [ExtCall.verifyCall "idtok1" (some "refresh1")]) := by
  constructor
  · exact c5_missing_redirect_url_fails_fast.1 sampleEnv
      { whenAuthed := AuthAction.RENDER, whenUnauthed := AuthAction.REDIRECT_TO_LOGIN,
        appPageURL := none, authPageURL := none }
      true none createAuthUserAnon [] (by rfl) (by rfl) rfl (by rfl) (by rfl)
  · exact c5_missing_redirect_url_fails_fast.2 authedEnv
      { whenAuthed := AuthAction.REDIRECT_TO_APP, whenUnauthed := AuthAction.RENDER,
        appPageURL := none, authPageURL := none }
      true none authedUser [ExtCall.verifyCall "idtok1" (some "refresh1")]
      (by rfl) (by rfl) rfl (by rfl) (by rfl)

/-- C6: every redirect the handler returns has `permanent = false`; for an
anonymous identity under `whenUnauthed = REDIRECT_TO_LOGIN` with
`authPageURL = "/login"` the decision is exactly
`destination = "/login", permanent = false`; and the
unauthenticated-redirect check is evaluated first: when it applies, the
decision is unchanged by `whenAuthed` and `appPageURL`. -/
theorem c6_redirects_not_permanent :
    (∀ (env : Env) (opts : Options) (ut : Bool) (gssp : Option (AuthUser → JsObject))
       (r : Redirect) (calls : List ExtCall),
       handler env opts ut gssp = (Except.ok (HandlerResult.redirect r), calls) →
       r.permanent = false) ∧
    applyPolicy { authPageURL := none, appPageURL := none }
        { whenAuthed := AuthAction.RENDER, whenUnauthed := AuthAction.REDIRECT_TO_LOGIN,
          appPageURL := none, authPageURL := some "/login" }
        createAuthUserAnon
      = Except.ok (some { destination := "/login", permanent := false }) ∧
    (∀ (cfg : Config) (opts : Options) (u : AuthUser) (wa : AuthAction) (ap : Option String),
       truthyOpt u.id = false → opts.whenUnauthed = AuthAction.REDIRECT_TO_LOGIN →
       applyPolicy cfg { opts with whenAuthed := wa, appPageURL := ap } u
         = applyPolicy cfg opts u) := by
  refine ⟨?_, by rfl, ?_⟩
  · intro env opts ut gssp r calls h
    rcases hres : resolveAuthUser env ut with ⟨res, calls0⟩
    cases res with
    | error e =>
      rw [handler_eq_of_resolve_error env opts ut gssp e calls0 hres] at h
      simp at h
    | ok u =>
      rw [handler_eq_of_resolve_ok env opts ut gssp u calls0 hres] at h
      cases hpol : applyPolicy env.config opts u with
      | error e =>
        rw [hpol] at h
        simp at h
      | ok o =>
        cases o with
        | some r2 =>
          rw [hpol] at h
          simp only [Prod.mk.injEq, Except.ok.injEq, HandlerResult.redirect.injEq] at h
          obtain ⟨hr, _⟩ := h
          exact applyPolicy_permanent_false env.config opts u r (hr ▸ hpol)
        | none =>
          rw [hpol] at h
          cases gssp with
          | none => simp at h
          | some f => simp at h
  · intro cfg opts u wa ap h1 h2
    rw [applyPolicy_unauthed_redirect cfg { opts with whenAuthed := wa, appPageURL := ap } u h1 h2,
      applyPolicy_unauthed_redirect cfg opts u h1 h2]

/-- Witness for C6: a concrete login redirect returned by the handler is
non-permanent. -/
theorem c6_witness :
    ({ destination := "/login", permanent := false } : Redirect).permanent = false :=
  c6_redirects_not_permanent.1 sampleEnv
    { whenAuthed := AuthAction.RENDER, whenUnauthed := AuthAction.REDIRECT_TO_LOGIN,
      appPageURL := none, authPageURL := some "/login" }
    true none { destination := "/login", permanent := false } [] (by rfl)

/-- C7: a request lacking the session cookie resolves to the anonymous
Identity with an empty external-call trace — in particular no
verify/refresh network call — in token mode and in snapshot mode alike. -/
theorem c7_no_cookie_resolves_anonymous :
    (∀ env : Env, env.getCookie env.tokensCookieName = none →
       resolveAuthUser env true = (Except.ok createAuthUserAnon, [])) ∧
    (∀ env : Env, env.getCookie env.userCookieName = none →
       resolveAuthUser env false = (Except.ok createAuthUserAnon, [])) := by
  constructor
  · intro env h
    exact resolveAuthUser_no_idToken env { idToken := none, refreshToken := none }
      (readTokenPayload_absent env h) (Or.inl rfl)
  · intro env h
    unfold resolveAuthUser
    rw [h]
    rfl

/-- Witness for C7: the cookie-free environment resolves anonymously with
no external calls, in both modes. -/
theorem c7_witness :
    resolveAuthUser sampleEnv true = (Except.ok createAuthUserAnon, []) ∧
    resolveAuthUser sampleEnv false = (Except.ok createAuthUserAnon, []) :=
  ⟨c7_no_cookie_resolves_anonymous.1 sampleEnv rfl,
   c7_no_cookie_resolves_anonymous.2 sampleEnv rfl⟩

/-- C9: in snapshot mode (`useToken = false`) every request resolves by
deserializing the separate user cookie directly — the result is exactly
the `AuthUser` built from that cookie's value, the external-call trace is
empty (no network call, no verifier invocation), and the resulting
identity's id-token value is `null`. -/
theorem c9_snapshot_mode_direct :
    (∀ env : Env,
       resolveAuthUser env false =
         (Except.ok (createAuthUserFromSerialized env (env.getCookie env.userCookieName)),
          [])) ∧
    (∀ (env : Env) (v : Option String),
       (createAuthUserFromSerialized env v).token = none) := by
  constructor
  · intro env
    rfl
  · intro env v
    cases v with
    | none => rfl
    | some s => rfl

/-- C10: calling the factory with no options resolves the defaults to
`whenAuthed = RENDER`, `whenUnauthed = RENDER`, `appPageURL = null`,
`authPageURL = null` and `useToken = true`; consequently the
default-configured policy decides no redirect and throws no
missing-redirect-URL error for any identity, and whenever resolution
succeeds the default-configured handler returns a props result. -/
theorem c10_default_options_always_props :
    resolveOptions noOptions =
      { whenAuthed := AuthAction.RENDER, whenUnauthed := AuthAction.RENDER,
        appPageURL := none, authPageURL := none } ∧
    resolveUseToken none = true ∧
    (∀ (cfg : Config) (u : AuthUser), applyPolicy cfg defaultOptions u = Except.ok none) ∧
    (∀ (env : Env) (gssp : Option (AuthUser → JsObject)) (u : AuthUser)
       (calls : List ExtCall),
       resolveAuthUser env defaultUseToken = (Except.ok u, calls) →
       ∃ (p : JsObject) (calls2 : List ExtCall),
         handler env defaultOptions defaultUseToken gssp =
           (Except.ok (HandlerResult.props p), calls2)) := by
  refine ⟨rfl, rfl, applyPolicy_defaultOptions, ?_⟩
  intro env gssp u calls hres
  rw [handler_eq_of_resolve_ok env defaultOptions defaultUseToken gssp u calls hres,
    applyPolicy_defaultOptions env.config u]
  cases gssp with
  | none => exact ⟨_, _, rfl⟩
  | some f => exact ⟨_, _, rfl⟩

/-- Witness for C10: in the cookie-free environment the default-configured
handler produces a props result. -/
theorem c10_witness :
    ∃ (p : JsObject) (calls2 : List ExtCall),
      handler sampleEnv defaultOptions defaultUseToken none =
        (Except.ok (HandlerResult.props p), calls2) :=
  c10_default_options_always_props.2.2.2 sampleEnv none createAuthUserAnon [] (by rfl)

/-- C8: an authenticated identity under `whenAuthed = RENDER` yields no
redirect; and whenever resolution succeeds and the policy decides no
redirect, a supplied wrapped provider is invoked exactly once — the call
trace gains exactly one provider invocation — carrying the resolved
identity injected into its context, and the props merge the provider's
output for that identity. -/
theorem c8_provider_invoked_exactly_once :
    (∀ (cfg : Config) (opts : Options) (u : AuthUser),
       truthyOpt u.id = true → opts.whenAuthed = AuthAction.RENDER →
       applyPolicy cfg opts u = Except.ok none) ∧
    (∀ (env : Env) (opts : Options) (ut : Bool) (f : AuthUser → JsObject)
       (u : AuthUser) (calls : List ExtCall),
       resolveAuthUser env ut = (Except.ok u, calls) →
       applyPolicy env.config opts u = Except.ok none →
       handler env opts ut (some f) =
         (Except.ok (HandlerResult.props
             (("AuthUserSerialized", JsValue.str (env.serializeAuthUser u)) :: f u)),
          calls ++ [ExtCall.providerCall u]) ∧
       (handler env opts ut (some f)).2.filter isProviderCall
         = [ExtCall.providerCall u]) := by
  constructor
  · intro cfg opts u h1 h2
    exact applyPolicy_none_authed cfg opts u h1 (fun hc => by rw [h2] at hc; cases hc)
  · intro env opts ut f u calls hres hpol
    have hmain : handler env opts ut (some f) =
        (Except.ok (HandlerResult.props
            (("AuthUserSerialized", JsValue.str (env.serializeAuthUser u)) :: f u)),
         calls ++ [ExtCall.providerCall u]) := by
      rw [handler_eq_of_resolve_ok env opts ut (some f) u calls hres, hpol]
    have hcalls : calls.filter isProviderCall = [] := by
      have h2 := resolveAuthUser_no_providerCall env ut
      rw [hres] at h2
      exact h2
    refine ⟨hmain, ?_⟩
    rw [hmain]
    simp [List.filter_append, hcalls, isProviderCall]

/-- Witness for C8: in the authenticated environment with default options,
the wrapped provider runs exactly once with the resolved authenticated
user. -/
theorem c8_witness :
    handler authedEnv defaultOptions true (some fun _ => [("uid", JsValue.str "user1")]) =
      (Except.ok (HandlerResult.props
          [("AuthUserSerialized", JsValue.str "serializedAuthUser"),
           ("uid", JsValue.str "user1")]),
       [ExtCall.verifyCall "idtok1" (some "refresh1"), ExtCall.providerCall authedUser]) ∧
    (handler authedEnv defaultOptions true
        (some fun _ => [("uid", JsValue.str "user1")])).2.filter isProviderCall
      = [ExtCall.providerCall authedUser] :=
  c8_provider_invoked_exactly_once.2 authedEnv defaultOptions true
    (fun _ => [("uid", JsValue.str "user1")]) authedUser
    [ExtCall.verifyCall "idtok1" (some "refresh1")] (by rfl) (by rfl)

/-- C1 counterexample: the claim says the wrapped provider's keys can
never overwrite the reserved `AuthUserSerialized` key because that key is
assigned last in the merge order.  In the source the reserved key is
written FIRST and `composedProps` is spread AFTER it, so a provider that
returns its own `AuthUserSerialized` binding does overwrite the reserved
value: here the merged props yield the provider's `"spoofed"` value, not
the handler's serialization `"serializedAuthUser"`. -/
theorem c1_counterexample :
    handler sampleEnv defaultOptions true
        (some fun _ => [("AuthUserSerialized", JsValue.str "spoofed")])
      = (Except.ok (HandlerResult.props
            [("AuthUserSerialized", JsValue.str "serializedAuthUser"),
             ("AuthUserSerialized", JsValue.str "spoofed")]),
         [ExtCall.providerCall createAuthUserAnon]) ∧
    objGet [("AuthUserSerialized", JsValue.str "serializedAuthUser"),
            ("AuthUserSerialized", JsValue.str "spoofed")] "AuthUserSerialized"
      = some (JsValue.str "spoofed") ∧
    sampleEnv.serializeAuthUser createAuthUserAnon = "serializedAuthUser" ∧
    JsValue.str "spoofed" ≠ JsValue.str "serializedAuthUser" :=
  ⟨rfl, rfl, rfl, by decide⟩

/-- C1 (amended): every props result the handler returns starts with the
reserved `AuthUserSerialized` key bound to the serialized identity — so
the key is always present, even when the wrapped provider returns an
empty object — but the reserved key is assigned FIRST in the merge order,
so a same-named key from the wrapped provider (spread after it) wins the
lookup; the reserved value survives only when the provider does not bind
that key. -/
theorem c1_reserved_key_first_always_present :
    ∀ (env : Env) (opts : Options) (ut : Bool) (gssp : Option (AuthUser → JsObject))
      (p : JsObject) (calls : List ExtCall),
      handler env opts ut gssp = (Except.ok (HandlerResult.props p), calls) →
      ∃ (u : AuthUser) (rest : JsObject) (calls0 : List ExtCall),
        resolveAuthUser env ut = (Except.ok u, calls0) ∧
        p = ("AuthUserSerialized", JsValue.str (env.serializeAuthUser u)) :: rest ∧
        objGet p "AuthUserSerialized" =
          some ((objGet rest "AuthUserSerialized").getD
            (JsValue.str (env.serializeAuthUser u))) := by
  intro env opts ut gssp p calls h
  rcases hres : resolveAuthUser env ut with ⟨res, calls0⟩
  cases res with
  | error e =>
    rw [handler_eq_of_resolve_error env opts ut gssp e calls0 hres] at h
    simp at h
  | ok u =>
    rw [handler_eq_of_resolve_ok env opts ut gssp u calls0 hres] at h
    cases hpol : applyPolicy env.config opts u with
    | error e =>
      rw [hpol] at h
      simp at h
    | ok o =>
      cases o with
      | some r =>
        rw [hpol] at h
        simp at h
      | none =>
        rw [hpol] at h
        cases gssp with
        | none =>
          simp only [Prod.mk.injEq, Except.ok.injEq, HandlerResult.props.injEq] at h
          obtain ⟨hp2, _⟩ := h
          subst hp2
          exact ⟨u, [], calls0, rfl, rfl, objGet_cons_self _ _ _⟩
        | some f =>
          simp only [Prod.mk.injEq, Except.ok.injEq, HandlerResult.props.injEq] at h
          obtain ⟨hp2, _⟩ := h
          subst hp2
          exact ⟨u, f u, calls0, rfl, rfl, objGet_cons_self _ _ _⟩

/-- Witness for C1 (amended): with no wrapped provider, the props hold
exactly the reserved key with the serialized identity. -/
theorem c1_witness :
    ∃ (u : AuthUser) (rest : JsObject) (calls0 : List ExtCall),
      resolveAuthUser sampleEnv true = (Except.ok u, calls0) ∧
      [("AuthUserSerialized", JsValue.str "serializedAuthUser")]
        = ("AuthUserSerialized", JsValue.str (sampleEnv.serializeAuthUser u)) :: rest ∧
      objGet [("AuthUserSerialized", JsValue.str "serializedAuthUser")]
          "AuthUserSerialized"
        = some ((objGet rest "AuthUserSerialized").getD
            (JsValue.str (sampleEnv.serializeAuthUser u))) :=
  c1_reserved_key_first_always_present sampleEnv defaultOptions true none
    [("AuthUserSerialized", JsValue.str "serializedAuthUser")] [] (by rfl)

/-- C2 counterexample: the claim says a present but malformed cookie
payload must not propagate a parsing exception and must resolve the
anonymous Identity.  In the source `JSON.parse(cookieValStr)` (line 65)
is not wrapped in any try/catch, so with the tokens cookie holding the
non-JSON payload `"not-json"` the `SyntaxError` escapes the handler
instead of producing an anonymous props result. -/
theorem c2_counterexample :
    handler malformedEnv defaultOptions true none
      = (Except.error (HandlerErr.jsonParseError "SyntaxError: Unexpected token"), []) :=
  rfl

/-- C2 (amended): in token mode, a cookie payload that is present and
non-empty but is not well-formed JSON causes the handler to propagate the
parsing exception to the caller; only an absent (or empty, hence falsy)
payload is treated as an absent credential. -/
theorem c2_parse_error_propagates :
    ∀ (env : Env) (opts : Options) (gssp : Option (AuthUser → JsObject)) (s e : String),
      env.getCookie env.tokensCookieName = some s → s ≠ "" →
      env.parseJson s = Except.error e →
      handler env opts true gssp =
        (Except.error (HandlerErr.jsonParseError e), []) := by
  intro env opts gssp s e hc hs hp
  exact handler_eq_of_resolve_error env opts true gssp _ []
    (resolveAuthUser_payload_error env _ (readTokenPayload_parse_error env s e hc hs hp))

/-- Witness for C2 (amended): the malformed-payload environment makes the
handler propagate the `SyntaxError`. -/
theorem c2_witness :
    handler malformedEnv
        { whenAuthed := AuthAction.RENDER, whenUnauthed := AuthAction.RENDER,
          appPageURL := none, authPageURL := none } true
        (some fun _ => [])
      = (Except.error (HandlerErr.jsonParseError "SyntaxError: Unexpected token"), []) :=
  c2_parse_error_propagates malformedEnv
    { whenAuthed := AuthAction.RENDER, whenUnauthed := AuthAction.RENDER,
      appPageURL := none, authPageURL := none }
    (some fun _ => []) "not-json" "SyntaxError: Unexpected token"
    (by rfl) (by decide) (by rfl)

/-- C3 counterexample: the claim says a decoded payload missing EITHER
field is treated as "no credential" (verifier not invoked, anonymous
Identity).  The source gates only on `idToken` (line 67), so a payload
with an `idToken` but no `refreshToken` still invokes the verifier —
here the trace records a verifier call with an absent refresh token and
the resolved identity is the authenticated user, not the anonymous one. -/
theorem c3_counterexample :
    resolveAuthUser noRefreshEnv true
      = (Except.ok authedUser, [ExtCall.verifyCall "idtok1" none]) ∧
    authedUser ≠ createAuthUserAnon :=
  ⟨rfl, by decide⟩

/-- C3 (amended): in token mode only the absence (or falsiness) of the
`idToken` field — or of the cookie itself — is treated as "no
credential", yielding the anonymous Identity with no verifier call; a
payload with a truthy `idToken` invokes the verifier exactly once even
when the `refreshToken` field is absent, passing that (possibly absent)
refresh token through. -/
theorem c3_only_idtoken_gates_credential :
    (∀ (env : Env) (s : String) (p : CredentialPayload),
       env.getCookie env.tokensCookieName = some s → s ≠ "" →
       env.parseJson s = Except.ok p →
       (p.idToken = none ∨ p.idToken = some "") →
       resolveAuthUser env true = (Except.ok createAuthUserAnon, [])) ∧
    (∀ env : Env, env.getCookie env.tokensCookieName = none →
       resolveAuthUser env true = (Except.ok createAuthUserAnon, [])) ∧
    (∀ (env : Env) (s : String) (p : CredentialPayload) (t : String),
       env.getCookie env.tokensCookieName = some s → s ≠ "" →
       env.parseJson s = Except.ok p →
       p.idToken = some t → t ≠ "" →
       (resolveAuthUser env true).2 = [ExtCall.verifyCall t p.refreshToken]) := by
  refine ⟨?_, ?_, ?_⟩
  · intro env s p hc hs hp ht
    exact resolveAuthUser_no_idToken env p (readTokenPayload_parse_ok env s p hc hs hp) ht
  · intro env hc
    exact resolveAuthUser_no_idToken env { idToken := none, refreshToken := none }
      (readTokenPayload_absent env hc) (Or.inl rfl)
  · intro env s p t hc hs hp ht hte
    rw [resolveAuthUser_verify env p t (readTokenPayload_parse_ok env s p hc hs hp) ht hte]

/-- Witness for C3 (amended): a payload with only a `refreshToken`
resolves anonymously with no calls; a payload with only an `idToken`
triggers exactly one verifier call carrying an absent refresh token. -/
theorem c3_witness :
    resolveAuthUser noIdTokenEnv true = (Except.ok createAuthUserAnon, []) ∧
    (resolveAuthUser noRefreshEnv true).2 = [ExtCall.verifyCall "idtok1" none] :=
  ⟨c3_only_idtoken_gates_credential.1 noIdTokenEnv "credentialJson"
      { idToken := none, refreshToken := some "refresh1" }
      (by rfl) (by decide) (by rfl) (Or.inl rfl),
   c3_only_idtoken_gates_credential.2.2 noRefreshEnv "credentialJson"
      { idToken := some "idtok1", refreshToken := none } "idtok1"
      (by rfl) (by decide) (by rfl) rfl (by decide)⟩

/-- C4 counterexample: the claim says a verification/refresh failure is
caught by the handler and converted into the anonymous Identity, never
escaping.  The source awaits `verifyIdToken` (line 68) with no
try/catch, so with a payload whose credentials the verifier rejects the
failure escapes the handler as an error rather than yielding anonymous
props. -/
theorem c4_counterexample :
    handler revokedEnv defaultOptions true none
      = (Except.error (HandlerErr.verifyError "auth/argument-error"),
         [ExtCall.verifyCall "expiredTok" (some "revokedRefresh")]) :=
  rfl

/-- C4 (amended): the handler does not catch verification failures: for
every payload with a truthy `idToken` whose verification/refresh fails,
the verifier's failure propagates out of the handler (after the single
verifier call), with no conversion to the anonymous Identity at this
layer. -/
theorem c4_verify_failure_propagates :
    ∀ (env : Env) (opts : Options) (gssp : Option (AuthUser → JsObject))
      (s : String) (p : CredentialPayload) (t e : String),
      env.getCookie env.tokensCookieName = some s → s ≠ "" →
      env.parseJson s = Except.ok p →
      p.idToken = some t → t ≠ "" →
      env.verifyIdToken t p.refreshToken = Except.error e →
      handler env opts true gssp =
        (Except.error (HandlerErr.verifyError e),
         [ExtCall.verifyCall t p.refreshToken]) := by
  intro env opts gssp s p t e hc hs hp ht hte hv
  have hres : resolveAuthUser env true =
      (Except.error (HandlerErr.verifyError e), [ExtCall.verifyCall t p.refreshToken]) := by
    rw [resolveAuthUser_verify env p t (readTokenPayload_parse_ok env s p hc hs hp) ht hte,
      hv]
  exact handler_eq_of_resolve_error env opts true gssp _ _ hres

/-- Witness for C4 (amended): the revoked-credential environment makes
the handler propagate the verifier's failure. -/
theorem c4_witness :
    handler revokedEnv
        { whenAuthed := AuthAction.RENDER, whenUnauthed := AuthAction.RENDER,
          appPageURL := none, authPageURL := none } true
        (some fun _ => [])
      = (Except.error (HandlerErr.verifyError "auth/argument-error"),
         [ExtCall.verifyCall "expiredTok" (some "revokedRefresh")]) :=
  c4_verify_failure_propagates revokedEnv
    { whenAuthed := AuthAction.RENDER, whenUnauthed := AuthAction.RENDER,
      appPageURL := none, authPageURL := none }
    (some fun _ => []) "credentialJson"
    { idToken := some "expiredTok", refreshToken := some "revokedRefresh" }
    "expiredTok" "auth/argument-error"
    (by rfl) (by decide) (by rfl) rfl (by decide) (by rfl)
